import Mathlib

/-
  Verification development for the ReSageAI resume-analysis backend
  (tool/backend/app.py).  The Python helpers are shallowly embedded as
  executable Lean functions over String / List Char; the three calls to
  the generative-text collaborator are modelled by an
  `Except String String` input (the collaborator either returns a reply
  text or raises with a detail string), matching the try/except in
  `ask_gemini`.  Whitespace and line boundaries follow Python's full
  character sets (`str.isspace`, `str.splitlines`); the classes `\w`
  and `\d` are modelled over ASCII, the range the patterns spell out.
-/

namespace ReSage

/-- Python whitespace — the `str.isspace` set, as stripped by
`str.strip()` and matched by the regex class `\s`: the ASCII blanks,
the separators `\x1c`-`\x1f`, and the Unicode spaces. -/
def isPySpace (c : Char) : Bool :=
  c = ' ' || c = '\t' || c = '\n' || c = '\r' || c = '\x0b' || c = '\x0c' ||
  c = '\x1c' || c = '\x1d' || c = '\x1e' || c = '\x1f' ||
  c = '\x85' || c = '\xa0' || c = '\u1680' ||
  (decide (0x2000 ≤ c.toNat) && decide (c.toNat ≤ 0x200a)) ||
  c = '\u2028' || c = '\u2029' || c = '\u202f' || c = '\u205f' || c = '\u3000'

/-- ASCII model of the regex class `\d`. -/
def isPyDigit (c : Char) : Bool :=
  decide (48 ≤ c.toNat ∧ c.toNat ≤ 57)

/-- ASCII model of the regex class `\w`: letters, digits, underscore. -/
def wordChar (c : Char) : Bool := c.isAlphanum || c = '_'

/-- Drop the longest prefix and the longest suffix of characters
satisfying `p` — the semantics of Python `str.strip(chars)`. -/
def dropEnds (p : Char → Bool) (cs : List Char) : List Char :=
  ((cs.dropWhile p).reverse.dropWhile p).reverse

/-- Python `s.strip(chars)` for the character class `p`. -/
def pyStripChars (p : Char → Bool) (s : String) : String :=
  ⟨dropEnds p s.data⟩

/-- Python `s.strip()` (whitespace at both ends). -/
def pyStrip (s : String) : String := pyStripChars isPySpace s

/-- Python `s.lower()` (ASCII model). -/
def pyLower (s : String) : String := ⟨s.data.map Char.toLower⟩

/-- The characters stripped by `ln.strip('- ')` in the three parsers. -/
def dashSpace (c : Char) : Bool := c = '-' || c = ' '

/-- `ln.strip('- ').strip()` — how every bullet item is cleaned. -/
def parseItem (ln : String) : String := pyStrip (pyStripChars dashSpace ln)

/-- `ln.strip().startswith('-')` — the bullet-line test used by all
three parsers. -/
def isDashLine (ln : String) : Bool :=
  match (pyStrip ln).data with
  | c :: _ => c = '-'
  | [] => false

/-- The line boundaries of Python `str.splitlines`: `\n`, `\r`, `\v`,
`\f`, the separators `\x1c`-`\x1e`, NEL, LS and PS (`\r\n` is consumed
as a single boundary by the splitter itself). -/
def isLineBoundary (c : Char) : Bool :=
  c = '\n' || c = '\r' || c = '\x0b' || c = '\x0c' ||
  c = '\x1c' || c = '\x1d' || c = '\x1e' ||
  c = '\x85' || c = '\u2028' || c = '\u2029'

/-- One step of Python `str.splitlines`: accumulate the current line
(in reverse) and split at every line boundary, with `\r\n` as one
boundary; a trailing boundary produces no extra empty line. -/
def splitLinesGo (acc : List Char) : List Char → List String
  | [] => if acc.isEmpty then [] else [String.mk acc.reverse]
  | '\r' :: '\n' :: rest => String.mk acc.reverse :: splitLinesGo [] rest
  | '\r' :: rest => String.mk acc.reverse :: splitLinesGo [] rest
  | '\n' :: rest => String.mk acc.reverse :: splitLinesGo [] rest
  | '\x0b' :: rest => String.mk acc.reverse :: splitLinesGo [] rest
  | '\x0c' :: rest => String.mk acc.reverse :: splitLinesGo [] rest
  | '\x1c' :: rest => String.mk acc.reverse :: splitLinesGo [] rest
  | '\x1d' :: rest => String.mk acc.reverse :: splitLinesGo [] rest
  | '\x1e' :: rest => String.mk acc.reverse :: splitLinesGo [] rest
  | '\x85' :: rest => String.mk acc.reverse :: splitLinesGo [] rest
  | '\u2028' :: rest => String.mk acc.reverse :: splitLinesGo [] rest
  | '\u2029' :: rest => String.mk acc.reverse :: splitLinesGo [] rest
  | c :: rest => splitLinesGo (c :: acc) rest

/-- Python `raw.splitlines()`. -/
def pySplitLines (s : String) : List String := splitLinesGo [] s.data

/-- `pat.isPrefixOf cs` written out, used by the substring and
whole-word matchers. -/
def prefixMatches : List Char → List Char → Bool
  | [], _ => true
  | _ :: _, [] => false
  | p :: ps, c :: cs => p = c && prefixMatches ps cs

/-- `pat in s` (Python substring test), scanning every suffix. -/
def containsFrom (pat : List Char) : List Char → Bool
  | [] => prefixMatches pat []
  | c :: rest => prefixMatches pat (c :: rest) || containsFrom pat rest

/-- Python `pat in s`. -/
def strContains (s pat : String) : Bool := containsFrom pat.data s.data

/-- Skip a maximal run of `\s*`. -/
def skipWs : List Char → List Char
  | [] => []
  | c :: cs => if isPySpace c then skipWs cs else c :: cs

/-- Value of a list of ASCII digit characters, as `int()` reads it. -/
def digitsVal (ds : List Char) : Nat :=
  ds.foldl (fun a c => a * 10 + (c.toNat - 48)) 0

/-- Match the regex tail `\s*/\s*100` of the score pattern. -/
def slash100 (cs : List Char) : Bool :=
  match skipWs cs with
  | '/' :: cs2 =>
    (match skipWs cs2 with
     | '1' :: '0' :: '0' :: _ => true
     | _ => false)
  | _ => false

/-- Match the literal `Score` case-insensitively at the head of `cs`
(the `re.IGNORECASE` flag of the score search). -/
def scoreHead : List Char → Option (List Char)
  | a :: b :: c :: d :: e :: rest =>
    if a.toLower = 's' && b.toLower = 'c' && c.toLower = 'o'
        && d.toLower = 'r' && e.toLower = 'e' then some rest else none
  | _ => none

/-- Match `Score\s*:\s*(\d{1,3})\s*/\s*100` starting exactly here and
return the captured group.  Since `\d{1,3}` backtracking always leaves a
digit in front of `\s*/` when it takes fewer characters than the whole
digit run, the pattern matches here iff the maximal digit run has length
1 to 3 and is followed by `\s*/\s*100`. -/
def matchScoreAt (cs : List Char) : Option Nat :=
  match scoreHead cs with
  | none => none
  | some r1 =>
    match skipWs r1 with
    | [] => none
    | c :: r2 =>
      if c = ':' then
        let r3 := skipWs r2
        let ds := r3.takeWhile isPyDigit
        if 1 ≤ ds.length ∧ ds.length ≤ 3 ∧ slash100 (r3.dropWhile isPyDigit) = true
        then some (digitsVal ds) else none
      else none

/-- `re.search` of the score pattern over one line: first position with
a match wins. -/
def searchScore : List Char → Option Nat
  | [] => none
  | c :: cs =>
    match matchScoreAt (c :: cs) with
    | some n => some n
    | none => searchScore cs

/-- The score parsed from one reply line, if any. -/
def scoreOfLine (ln : String) : Option Nat := searchScore ln.data

/-- The `for ln in lines: ... break` loop of `score_and_suggest`:
score of the first line carrying one, else 0. -/
def scoreLoop : List String → Nat
  | [] => 0
  | ln :: rest =>
    match scoreOfLine ln with
    | some n => n
    | none => scoreLoop rest

/-- `ask_gemini`: the collaborator call either returns a reply text or
raises; an exception is caught and converted into the sentinel string
(the f-string on the except branch), never re-raised. -/
def ask_gemini (resp : Except String String) : String :=
  match resp with
  | .ok t => t
  | .error e => "❌ Gemini API Error: " ++ e

/-- `score_and_suggest`: first score line (or 0) plus the bullet lines,
cleaned with `strip('- ').strip()` and truncated to 5. -/
def score_and_suggest (resp : Except String String) : Nat × List String :=
  let lines := pySplitLines (ask_gemini resp)
  let score := scoreLoop lines
  let suggestions :=
    lines.foldl (fun acc ln => if isDashLine ln then acc ++ [parseItem ln] else acc) []
  (score, suggestions.take 5)

/-- `grammar_errors`: the list comprehension over bullet lines, with no
cap at this stage. -/
def grammar_errors (resp : Except String String) : List String :=
  ((pySplitLines (ask_gemini resp)).filter isDashLine).map parseItem

/-- The `elif 'industry' in ln.lower() or 'field' in ln.lower()` test
of `recommend_jobs`. -/
def hasFieldOrIndustry (ln : String) : Bool :=
  strContains (pyLower ln) "industry" || strContains (pyLower ln) "field"

/-- One iteration of the `recommend_jobs` loop: bullet lines become job
roles, any other line mentioning industry/field overwrites the field. -/
def recommendStep (acc : List String × String) (ln : String) : List String × String :=
  if isDashLine ln then (acc.1 ++ [parseItem ln], acc.2)
  else if hasFieldOrIndustry ln then (acc.1, pyStrip ln)
  else acc

/-- `recommend_jobs`: roles capped at 5, field defaulting to
"Not identified". -/
def recommend_jobs (resp : Except String String) : List String × String :=
  let st := (pySplitLines (ask_gemini resp)).foldl recommendStep ([], "Not identified")
  (st.1.take 5, st.2)

/-- A line that sets the field in `recommend_jobs`: it is not a bullet
line (those are claimed by the `if` branch) and it mentions
industry/field. -/
def fieldLinePred (ln : String) : Bool := !(isDashLine ln) && hasFieldOrIndustry ln

/-- The camel-case repair of `extract_text_and_photo`:
`re.sub(r'([a-z])([A-Z])', r'\1 \2', text)`.  Matches never overlap
(the second character of one match is uppercase, the first of another
lowercase), so the substitution inserts a space at every lower-to-upper
adjacency. -/
def camelFixAux : List Char → List Char
  | [] => []
  | [c] => [c]
  | a :: b :: rest =>
    if a.isLower && b.isUpper then a :: ' ' :: camelFixAux (b :: rest)
    else a :: camelFixAux (b :: rest)

/-- The camel-case repair on strings. -/
def camelCaseSplit (s : String) : String := ⟨camelFixAux s.data⟩

/-- `extract_text_and_photo`: the library-level extraction either
yields (text, has_photo) or raises; on success the text gets the
camel-case repair, a library error propagates to the caller. -/
def extract_text_and_photo (libResult : Except String (String × Bool)) :
    Except String (String × Bool) :=
  libResult.map (fun tp => (camelCaseSplit tp.1, tp.2))

/-- Boundary before a whole-word occurrence: start of text or a
non-word character (all patterns below begin with a word character). -/
def prevBoundary : Option Char → Bool
  | none => true
  | some p => !(wordChar p)

/-- Boundary after a whole-word occurrence: end of text or a non-word
character (all patterns below end with a word character). -/
def nextBoundary : List Char → Bool
  | [] => true
  | c :: _ => !(wordChar c)

/-- `re.search(r'\bpat\b', t)` for a nonempty pattern starting and
ending with word characters, scanning with the previous character. -/
def wordOccursFrom (pat : List Char) : Option Char → List Char → Bool
  | _, [] => false
  | prev, c :: rest =>
    (prevBoundary prev && prefixMatches pat (c :: rest)
        && nextBoundary (List.drop pat.length (c :: rest)))
      || wordOccursFrom pat (some c) rest

/-- Whole-word occurrence of `pat` in `t`. -/
def wordOccurs (pat t : String) : Bool := wordOccursFrom pat.data none t.data

/-- The class `[\w.+-]` of the email local part. -/
def emailLocal (c : Char) : Bool := wordChar c || c = '.' || c = '+' || c = '-'

/-- The class `[\w-]` of the first domain label. -/
def emailDom1 (c : Char) : Bool := wordChar c || c = '-'

/-- The class `[\w.-]` of the domain tail. -/
def emailDom2 (c : Char) : Bool := wordChar c || c = '.' || c = '-'

/-- After an `@`: `[\w-]+\.[\w.-]+`.  Because `.` is outside `[\w-]`,
the `+` run that a match uses is exactly the maximal run, and it must
be followed by a dot and one more tail character. -/
def emailAfterAt (cs : List Char) : Bool :=
  !(cs.takeWhile emailDom1).isEmpty &&
    (match cs.dropWhile emailDom1 with
     | '.' :: d :: _ => emailDom2 d
     | _ => false)

/-- `re.search(r'[\w.+-]+@[\w-]+\.[\w.-]+', text)` as existence of a
match: an `@` preceded by a local-part character and followed by a
valid domain. -/
def emailSearch : List Char → Bool
  | [] => false
  | a :: rest =>
    (match rest with
     | '@' :: rest2 => emailLocal a && emailAfterAt rest2
     | _ => false)
      || emailSearch rest

/-- The class `[\d ()-]` of the phone pattern. -/
def phoneSet (c : Char) : Bool :=
  isPyDigit c || c = ' ' || c = '(' || c = ')' || c = '-'

/-- `re.search(r'\+?\d[\d ()-]{7,}', text)` as existence of a match:
the optional `+` never affects whether some match exists, so this is a
digit followed by at least 7 characters of the class. -/
def phoneSearch : List Char → Bool
  | [] => false
  | c :: rest =>
    (isPyDigit c && (rest.take 7).length = 7 && (rest.take 7).all phoneSet)
      || phoneSearch rest

/-- `detect_criteria`: the six labelled booleans, keyword criteria on
the lower-cased text, contact info on the original text. -/
def detect_criteria (text : String) (has_photo : Bool) : List (String × Bool) :=
  let t := pyLower text
  [("Profile Photo", has_photo),
   ("Summary", wordOccurs "objective" t || wordOccurs "summary" t),
   ("Skills", wordOccurs "skill" t || wordOccurs "skills" t),
   ("Education", wordOccurs "education" t || wordOccurs "b.tech" t
      || wordOccurs "btech" t || wordOccurs "bachelor" t
      || wordOccurs "master" t || wordOccurs "phd" t),
   ("Projects", wordOccurs "project" t || wordOccurs "projects" t),
   ("Contact Info", emailSearch text.data || phoneSearch text.data)]

/-- `sum(criteria.values())` over the boolean values. -/
def countTrue (l : List (String × Bool)) : Nat := (l.filter (fun kv => kv.2)).length

/-- A value passed as a keyword argument to `render_template`. -/
inductive TVal
  | nat (n : Nat)
  | str (s : String)
  | strs (l : List String)
  | crit (m : List (String × Bool))
deriving DecidableEq

/-- The keyword-argument context handed to `render_template`. -/
abbrev Ctx := List (String × TVal)

/-- Outcome of the `/analysis` route: a rendered template with a status
code, or an exception that escapes the route unhandled. -/
inductive Response
  | render (tmpl : String) (ctx : Ctx) (status : Nat)
  | unhandledError (e : String)
deriving DecidableEq

/-- `str(e)` of a Flask `HTTPException`: code, reason phrase, detail. -/
def strOfHTTPError (code : Nat) (descr : String) : String :=
  toString code ++ " " ++
    (if code = 502 then "Bad Gateway" else "Bad Request") ++ ": " ++ descr

/-- `handle_errors`, the shared 400/502 error handler: renders
results.html with score 0, empty criteria, the single stringified
error, empty suggestions, at the originating status code. -/
def handle_errors (code : Nat) (descr : String) : Response :=
  .render "results.html"
    [("score", .nat 0), ("criteria", .crit []),
     ("errors", .strs [strOfHTTPError code descr]),
     ("suggestions", .strs [])]
    code

/-- The keyword arguments of the successful `render_template` call in
`analysis`. -/
def resultsCtx (score : Nat) (criteria : List (String × Bool))
    (errors suggestions job_roles : List String) (job_field : String) : Ctx :=
  [("score", .nat score), ("criteria", .crit criteria),
   ("errors", .strs errors), ("suggestions", .strs suggestions),
   ("job_roles", .strs job_roles), ("job_field", .str job_field)]

/-- The `/analysis` route.  `fname` is the query parameter, `extraction`
the outcome of `extract_text_and_photo` (whose call sits outside the
try block), `r1 r2 r3` the collaborator outcomes of the three provider
calls.  `ask_gemini` already absorbs collaborator errors, so the try
body around the three parsers cannot itself raise in this model; the
502 branch survives only in `handle_errors`. -/
def analysis (fname : Option String) (extraction : Except String (String × Bool))
    (r1 r2 r3 : Except String String) : Response :=
  match fname with
  | none => handle_errors 400 "Filename missing"
  | some f =>
    if f = "" then handle_errors 400 "Filename missing"
    else
      match extraction with
      | .error e => .unhandledError e
      | .ok (text, has_photo) =>
        let criteria := detect_criteria text has_photo
        if countTrue criteria < 3 then
          handle_errors 400 "Uploaded file doesn’t appear to be a resume."
        else
          let sc := score_and_suggest r1
          let errs := grammar_errors r2
          let jr := recommend_jobs r3
          .render "results.html" (resultsCtx sc.1 criteria (errs.take 10) sc.2 jr.1 jr.2) 200

/-- The errors list carried by a context. -/
def ctxErrors (ctx : Ctx) : List String :=
  match List.lookup "errors" ctx with
  | some (.strs l) => l
  | _ => []

/-- The keyword names of a context, in order. -/
def ctxKeys (ctx : Ctx) : List String := ctx.map Prod.fst

/-- Errors list of a response (empty for an unhandled exception). -/
def respErrors : Response → List String
  | .render _ ctx _ => ctxErrors ctx
  | .unhandledError _ => []

/-- Keyword names of a rendered response. -/
def respKeys : Response → List String
  | .render _ ctx _ => ctxKeys ctx
  | .unhandledError _ => []

/-- Status code of a response (0 for an unhandled exception). -/
def respStatus : Response → Nat
  | .render _ _ code => code
  | .unhandledError _ => 0

/-! ## Helper lemmas -/

theorem splitLinesGo_noBoundary (cs : List Char) :
    ∀ acc : List Char, (∀ c ∈ cs, isLineBoundary c = false) →
      splitLinesGo acc cs =
        if acc.isEmpty && cs.isEmpty then [] else [String.mk (acc.reverse ++ cs)] := by
  induction cs with
  | nil => intro acc h; cases acc <;> simp [splitLinesGo]
  | cons c rest ih =>
    intro acc h
    have hc := h c (List.mem_cons_self c rest)
    simp only [isLineBoundary, Bool.or_eq_false_iff, decide_eq_false_iff_not] at hc
    have hr : ∀ x ∈ rest, isLineBoundary x = false := fun x hx => h x (List.mem_cons_of_mem c hx)
    rw [show splitLinesGo acc (c :: rest) = splitLinesGo (c :: acc) rest by
      simp [splitLinesGo, hc]]
    rw [ih (c :: acc) hr]
    simp

theorem pySplitLines_single (s : String) (hne : s.data ≠ [])
    (h : ∀ c ∈ s.data, isLineBoundary c = false) : pySplitLines s = [s] := by
  unfold pySplitLines
  rw [splitLinesGo_noBoundary s.data [] h]
  have : s.data.isEmpty = false := by
    cases hd : s.data with
    | nil => exact absurd hd hne
    | cons c cs => rfl
  simp [this]

theorem dropWhile_concat_keep (p : Char → Bool) (c : Char) (hc : p c = false) :
    ∀ l : List Char, ∃ t : List Char, (l ++ [c]).dropWhile p = t ++ [c] := by
  intro l
  induction l with
  | nil => exact ⟨[], by simp [List.dropWhile, hc]⟩
  | cons a l ih =>
    by_cases ha : p a = true
    · obtain ⟨t, ht⟩ := ih
      exact ⟨t, by simp [List.dropWhile, ha, ht]⟩
    · exact ⟨a :: l, by simp [List.dropWhile, Bool.of_not_eq_true ha]⟩

theorem dropEnds_head (p : Char → Bool) (c : Char) (cs : List Char) (hc : p c = false) :
    ∃ t : List Char, dropEnds p (c :: cs) = c :: t := by
  unfold dropEnds
  rw [List.dropWhile_cons_of_neg (by simp [hc])]
  obtain ⟨t, ht⟩ := dropWhile_concat_keep p c hc cs.reverse
  rw [show (c :: cs).reverse = cs.reverse ++ [c] by simp, ht]
  exact ⟨t.reverse, by simp⟩

theorem sentinel_head (e : String) :
    ∃ rest, (ask_gemini (.error e)).data = '❌' :: rest := ⟨_, rfl⟩

theorem isDashLine_sentinel (e : String) : isDashLine (ask_gemini (.error e)) = false := by
  obtain ⟨rest, hrest⟩ := sentinel_head e
  obtain ⟨t, ht⟩ := dropEnds_head isPySpace '❌' rest (by decide)
  simp [isDashLine, pyStrip, pyStripChars, hrest, ht]

theorem scoreLoop_eq_findSome (lines : List String) :
    scoreLoop lines = (lines.findSome? scoreOfLine).getD 0 := by
  induction lines with
  | nil => rfl
  | cons ln rest ih =>
    cases h : scoreOfLine ln <;> simp [scoreLoop, List.findSome?_cons, h, ih]

theorem suggestFold (lines : List String) (init : List String) :
    lines.foldl (fun acc ln => if isDashLine ln then acc ++ [parseItem ln] else acc) init
      = init ++ (lines.filter isDashLine).map parseItem := by
  induction lines generalizing init with
  | nil => simp
  | cons ln rest ih =>
    cases h : isDashLine ln <;> simp [List.filter_cons, h, ih]

theorem recommendFold_fst (lines : List String) :
    ∀ (roles : List String) (fld : String),
      (lines.foldl recommendStep (roles, fld)).1
        = roles ++ (lines.filter isDashLine).map parseItem := by
  induction lines with
  | nil => intro roles fld; simp
  | cons ln rest ih =>
    intro roles fld
    by_cases hd : isDashLine ln = true
    · simp [recommendStep, hd, ih, List.filter_cons]
    · have hd' : isDashLine ln = false := Bool.of_not_eq_true hd
      by_cases hf : hasFieldOrIndustry ln = true
      · simp [recommendStep, hd', hf, ih, List.filter_cons]
      · simp [recommendStep, hd', Bool.of_not_eq_true hf, ih, List.filter_cons]

theorem recommendFold_snd (lines : List String) :
    ∀ (roles : List String) (fld : String),
      (lines.foldl recommendStep (roles, fld)).2
        = (((lines.filter fieldLinePred).getLast?).map pyStrip).getD fld := by
  induction lines with
  | nil => intro roles fld; simp
  | cons ln rest ih =>
    intro roles fld
    by_cases hd : isDashLine ln = true
    · have hp : fieldLinePred ln = false := by simp [fieldLinePred, hd]
      simp [recommendStep, hd, ih, List.filter_cons, hp]
    · have hd' : isDashLine ln = false := Bool.of_not_eq_true hd
      by_cases hf : hasFieldOrIndustry ln = true
      · have hp : fieldLinePred ln = true := by simp [fieldLinePred, hd', hf]
        rw [show (ln :: rest).foldl recommendStep (roles, fld)
              = rest.foldl recommendStep (roles, pyStrip ln) by
            simp [recommendStep, hd', hf]]
        rw [ih roles (pyStrip ln)]
        rw [List.filter_cons, if_pos (by simp [hp])]
        cases hrest : rest.filter fieldLinePred with
        | nil => simp
        | cons x xs =>
          have hs : (x :: xs).getLast?.isSome := List.getLast?_isSome.mpr (by simp)
          obtain ⟨y, hy⟩ := Option.isSome_iff_exists.mp hs
          rw [List.getLast?_cons_cons, hy]
          simp
      · have hp : fieldLinePred ln = false := by simp [fieldLinePred, Bool.of_not_eq_true hf]
        simp [recommendStep, hd', Bool.of_not_eq_true hf, ih, List.filter_cons, hp]

theorem digitsVal_le (ds : List Char) (hd : ∀ c ∈ ds, isPyDigit c = true)
    (hlen : ds.length ≤ 3) : digitsVal ds ≤ 999 := by
  match ds, hlen with
  | [], _ => simp [digitsVal]
  | [a], _ =>
    have ha := hd a (by simp)
    simp [isPyDigit, decide_eq_true_eq] at ha
    simp [digitsVal]
    omega
  | [a, b], _ =>
    have ha := hd a (by simp)
    have hb := hd b (by simp)
    simp [isPyDigit, decide_eq_true_eq] at ha hb
    simp [digitsVal]
    omega
  | [a, b, c], _ =>
    have ha := hd a (by simp)
    have hb := hd b (by simp)
    have hc := hd c (by simp)
    simp [isPyDigit, decide_eq_true_eq] at ha hb hc
    simp [digitsVal]
    omega

theorem matchScoreAt_le (cs : List Char) (n : Nat) (h : matchScoreAt cs = some n) :
    n ≤ 999 := by
  unfold matchScoreAt at h
  split at h
  · exact absurd h (by simp)
  · split at h
    · exact absurd h (by simp)
    · split at h
      · dsimp only at h
        split at h
        · next hcond =>
          injection h with h'
          subst h'
          exact digitsVal_le _ (fun x hx => List.mem_takeWhile_imp hx) hcond.2.1
        · exact absurd h (by simp)
      · exact absurd h (by simp)

theorem searchScore_le (cs : List Char) (n : Nat) (h : searchScore cs = some n) :
    n ≤ 999 := by
  induction cs with
  | nil => simp [searchScore] at h
  | cons c rest ih =>
    rw [searchScore] at h
    cases hm : matchScoreAt (c :: rest) with
    | some m => rw [hm] at h; injection h with h'; subst h'; exact matchScoreAt_le _ _ hm
    | none => rw [hm] at h; exact ih h

theorem scoreLoop_le (lines : List String) : scoreLoop lines ≤ 999 := by
  induction lines with
  | nil => simp [scoreLoop]
  | cons ln rest ih =>
    rw [scoreLoop]
    cases hm : scoreOfLine ln with
    | some m => exact searchScore_le _ _ hm
    | none => exact ih

theorem camelFixAux_cons (b : Char) (rest : List Char) :
    ∃ t, camelFixAux (b :: rest) = b :: t := by
  cases rest with
  | nil => exact ⟨[], rfl⟩
  | cons c t =>
    by_cases h : (b.isLower && c.isUpper) = true
    · exact ⟨' ' :: camelFixAux (c :: t), by simp [camelFixAux, h]⟩
    · exact ⟨camelFixAux (c :: t), by simp [camelFixAux, Bool.of_not_eq_true h]⟩

theorem camelFixAux_idem (l : List Char) :
    camelFixAux (camelFixAux l) = camelFixAux l := by
  have hspU : (' ').isUpper = false := by decide
  have hspL : (' ').isLower = false := by decide
  induction l with
  | nil => rfl
  | cons a l ih =>
    cases l with
    | nil => rfl
    | cons b rest =>
      obtain ⟨t, ht⟩ := camelFixAux_cons b rest
      by_cases h : (a.isLower && b.isUpper) = true
      · rw [show camelFixAux (a :: b :: rest) = a :: ' ' :: camelFixAux (b :: rest) by
          simp [camelFixAux, h]]
        rw [ht]
        rw [show camelFixAux (a :: ' ' :: b :: t) = a :: camelFixAux (' ' :: b :: t) by
          simp [camelFixAux, hspU]]
        rw [show camelFixAux (' ' :: b :: t) = ' ' :: camelFixAux (b :: t) by
          simp [camelFixAux, hspL]]
        rw [← ht, ih]
      · have hF : (a.isLower && b.isUpper) = false := Bool.of_not_eq_true h
        rw [show camelFixAux (a :: b :: rest) = a :: camelFixAux (b :: rest) by
          simp [camelFixAux, hF]]
        rw [ht]
        rw [show camelFixAux (a :: b :: t) = a :: camelFixAux (b :: t) by
          simp [camelFixAux, hF]]
        rw [← ht, ih]


/-! ## Claim theorems -/

/-- Claim C1 (amended): in `recommend_jobs` the field label is the
last reply line that is not a bullet line and contains (case-insensitive)
"industry" or "field", stripped of surrounding whitespace, defaulting to
"Not identified"; a reply whose only such line is
"Field: Software Engineering" yields that line as the field. -/
theorem c1_field_label (resp : Except String String) :
    (recommend_jobs resp).2
      = ((((pySplitLines (ask_gemini resp)).filter fieldLinePred).getLast?).map pyStrip).getD
          "Not identified" ∧
    recommend_jobs (.ok "Field: Software Engineering")
      = ([], "Field: Software Engineering") := by
  refine ⟨?_, by decide⟩
  simp only [recommend_jobs]
  exact recommendFold_snd _ _ _

/-- Claim C1 counterexample: for the reply lines
["- Field: X", "Field: A", "Field: B"] the claim predicts the field
"- Field: X" (first matching line, verbatim with its dash); the code
instead yields "Field: B" (bullet lines are excluded and the last
match wins). -/
theorem c1_counterexample :
    (recommend_jobs (.ok "- Field: X\nField: A\nField: B")).2 = "Field: B" ∧
    ("Field: B" : String) ≠ "- Field: X" ∧
    ("Field: B" : String) ≠ "Field: A" := by decide

/-- Claim C2 (amended): the score is an integer between 0 and 999
inclusive (the pattern captures any 1-3 digit value with no upper check
against 100), with 0 as the default when no score line parses. -/
theorem c2_score_range (resp : Except String String) :
    (score_and_suggest resp).1 ≤ 999 ∧
    ((pySplitLines (ask_gemini resp)).findSome? scoreOfLine = none →
      (score_and_suggest resp).1 = 0) := by
  constructor
  · simp only [score_and_suggest]
    exact scoreLoop_le _
  · intro h
    simp only [score_and_suggest]
    rw [scoreLoop_eq_findSome, h]
    rfl

/-- Claim C2 witness: a concrete reply with no score line has score 0
(and within the 0..999 bound). -/
theorem c2_score_range_witness :
    (score_and_suggest (.ok "no score here")).1 ≤ 999 ∧
    (score_and_suggest (.ok "no score here")).1 = 0 :=
  ⟨(c2_score_range (.ok "no score here")).1,
   (c2_score_range (.ok "no score here")).2 (by decide)⟩

/-- Claim C2 counterexample: the reply line "Score: 150/100" parses to
score 150, above the claimed inclusive bound of 100. -/
theorem c2_counterexample :
    (score_and_suggest (.ok "Score: 150/100")).1 = 150 ∧
    ¬((score_and_suggest (.ok "Score: 150/100")).1 ≤ 100) := by decide

/-- Claim C3: the score is taken from the first reply line matching the
score pattern (case-insensitive), defaulting to 0 when no line matches,
and the suggestions are exactly the dash-prefixed lines (cleaned) capped
at 5; the reply ["Score: 85/100", "- improve formatting"] yields score
85 and suggestions ["improve formatting"]. -/
theorem c3_score_and_suggestions (resp : Except String String) :
    (score_and_suggest resp).1
      = ((pySplitLines (ask_gemini resp)).findSome? scoreOfLine).getD 0 ∧
    (score_and_suggest resp).2
      = (((pySplitLines (ask_gemini resp)).filter isDashLine).map parseItem).take 5 ∧
    score_and_suggest (.ok "Score: 85/100\n- improve formatting")
      = (85, ["improve formatting"]) ∧
    (score_and_suggest (.ok "no score here")).1 = 0 := by
  refine ⟨?_, ?_, by decide, by decide⟩
  · simp only [score_and_suggest]
    exact scoreLoop_eq_findSome _
  · simp only [score_and_suggest]
    rw [suggestFold]
    simp

/-- Claim C4 (amended): an exception in the collaborator call is caught
and converted to the sentinel string, never re-raised; whenever the
sentinel contains no line-boundary character (the `str.splitlines`
set), no score-pattern match and no industry/field mention (as holds
for typical transport-error details), parsing it yields score 0, empty
suggestion, grammar-error and job-role lists, and the field
"Not identified". -/
theorem c4_sentinel (e : String)
    (h1 : ∀ c ∈ (ask_gemini (.error e)).data, isLineBoundary c = false)
    (h2 : scoreOfLine (ask_gemini (.error e)) = none)
    (h3 : hasFieldOrIndustry (ask_gemini (.error e)) = false) :
    ask_gemini (.error e) = "❌ Gemini API Error: " ++ e ∧
    score_and_suggest (.error e) = (0, []) ∧
    grammar_errors (.error e) = [] ∧
    recommend_jobs (.error e) = ([], "Not identified") := by
  have hne : (ask_gemini (.error e)).data ≠ [] := by
    obtain ⟨rest, hrest⟩ := sentinel_head e
    simp [hrest]
  have hsplit : pySplitLines (ask_gemini (.error e)) = [ask_gemini (.error e)] :=
    pySplitLines_single _ hne h1
  have hdash : isDashLine (ask_gemini (.error e)) = false := isDashLine_sentinel e
  refine ⟨rfl, ?_, ?_, ?_⟩
  · simp only [score_and_suggest, hsplit]
    simp [scoreLoop, h2, hdash]
  · simp only [grammar_errors, hsplit]
    simp [hdash]
  · simp only [recommend_jobs, hsplit]
    simp [recommendStep, hdash, h3]

/-- Claim C4 witness: a concrete benign exception detail. -/
theorem c4_sentinel_witness :
    ask_gemini (.error "connection reset by peer")
        = "❌ Gemini API Error: " ++ "connection reset by peer" ∧
    score_and_suggest (.error "connection reset by peer") = (0, []) ∧
    grammar_errors (.error "connection reset by peer") = [] ∧
    recommend_jobs (.error "connection reset by peer") = ([], "Not identified") :=
  c4_sentinel "connection reset by peer" (by decide) (by decide) (by decide)

/-- Claim C4 counterexample: an exception whose detail is
"Score: 50/100" makes the sentinel parse to score 50, not 0, so parsing
the sentinel does not always yield a zero score. -/
theorem c4_counterexample :
    (score_and_suggest (.error "Score: 50/100")).1 = 50 ∧
    (score_and_suggest (.error "Score: 50/100")).1 ≠ 0 := by decide

/-- Claim C5: with a present filename and successful extraction, the
request reaches the provider calls iff at least 3 of the six criteria
hold; below the threshold it resolves to the 400 handler with the
"not a resume" message and the outcome is independent of the provider
replies (no provider call influences it), and at or above the threshold
it renders the success view built from the three provider calls. -/
theorem c5_gate (f text : String) (photo : Bool) (r1 r2 r3 : Except String String)
    (hf : f ≠ "") :
    (detect_criteria text photo).length = 6 ∧
    (countTrue (detect_criteria text photo) < 3 →
      analysis (some f) (.ok (text, photo)) r1 r2 r3
          = handle_errors 400 "Uploaded file doesn’t appear to be a resume." ∧
      ∀ r1a r2a r3a : Except String String,
        analysis (some f) (.ok (text, photo)) r1 r2 r3
          = analysis (some f) (.ok (text, photo)) r1a r2a r3a) ∧
    (3 ≤ countTrue (detect_criteria text photo) →
      analysis (some f) (.ok (text, photo)) r1 r2 r3
        = .render "results.html"
            (resultsCtx (score_and_suggest r1).1 (detect_criteria text photo)
              ((grammar_errors r2).take 10) (score_and_suggest r1).2
              (recommend_jobs r3).1 (recommend_jobs r3).2) 200) := by
  refine ⟨rfl, ?_, ?_⟩
  · intro hlt
    constructor
    · simp only [analysis]
      rw [if_neg hf]
      rw [if_pos hlt]
    · intro r1a r2a r3a
      simp only [analysis]
      rw [if_neg hf, if_pos hlt, if_neg hf, if_pos hlt]
  · intro hge
    have hlt : ¬(countTrue (detect_criteria text photo) < 3) := by omega
    simp only [analysis]
    rw [if_neg hf]
    rw [if_neg hlt]

/-- Claim C5 witness: a text with zero satisfied criteria is rejected
with the 400 handler, and the outcome does not change when the provider
replies change. -/
theorem c5_gate_witness :
    analysis (some "resume.pdf") (.ok ("", false)) (.ok "") (.ok "") (.ok "")
        = handle_errors 400 "Uploaded file doesn’t appear to be a resume." ∧
    analysis (some "resume.pdf") (.ok ("", false)) (.ok "") (.ok "") (.ok "")
        = analysis (some "resume.pdf") (.ok ("", false)) (.ok "A") (.ok "B") (.ok "C") := by
  have h := c5_gate "resume.pdf" "" false (.ok "") (.ok "") (.ok "") (by decide)
  have hlt : countTrue (detect_criteria "" false) < 3 := by decide
  exact ⟨(h.2.1 hlt).1, (h.2.1 hlt).2 (.ok "A") (.ok "B") (.ok "C")⟩

/-- Claim C6 (amended): the shared 400/502 handler renders the same
results template with score 0, empty criteria, exactly one error entry,
empty suggestions, at the originating status code — but its context
omits the job_roles and job_field entries that a successful analysis
response includes, so the context shapes differ. -/
theorem c6_error_shape (code : Nat) (descr : String) (sc : Nat)
    (crit : List (String × Bool)) (er su ro : List String) (fl : String)
    (h : code = 400 ∨ code = 502) :
    handle_errors code descr
      = .render "results.html"
          [("score", .nat 0), ("criteria", .crit []),
           ("errors", .strs [strOfHTTPError code descr]), ("suggestions", .strs [])]
          code ∧
    (respErrors (handle_errors code descr)).length = 1 ∧
    respStatus (handle_errors code descr) = code ∧
    respKeys (handle_errors code descr) ≠ ctxKeys (resultsCtx sc crit er su ro fl) := by
  refine ⟨rfl, rfl, rfl, ?_⟩
  have h1 : respKeys (handle_errors code descr)
      = ["score", "criteria", "errors", "suggestions"] := rfl
  have h2 : ctxKeys (resultsCtx sc crit er su ro fl)
      = ["score", "criteria", "errors", "suggestions", "job_roles", "job_field"] := rfl
  rw [h1, h2]
  decide

/-- Claim C6 witness: concrete instantiation of the handler shape. -/
theorem c6_error_shape_witness :
    handle_errors 400 "Filename missing"
      = .render "results.html"
          [("score", .nat 0), ("criteria", .crit []),
           ("errors", .strs [strOfHTTPError 400 "Filename missing"]),
           ("suggestions", .strs [])]
          400 ∧
    (respErrors (handle_errors 400 "Filename missing")).length = 1 ∧
    respStatus (handle_errors 400 "Filename missing") = 400 ∧
    respKeys (handle_errors 400 "Filename missing") ≠ ctxKeys (resultsCtx 0 [] [] [] [] "") :=
  c6_error_shape 400 "Filename missing" 0 [] [] [] [] "" (Or.inl rfl)

/-- Claim C6 counterexample: the handler context carries 4 keyword
entries while a successful analysis render carries 6 (job_roles and
job_field are missing from the error render), so the shapes are not the
same. -/
theorem c6_counterexample :
    respKeys (handle_errors 400 "Filename missing")
      = ["score", "criteria", "errors", "suggestions"] ∧
    respKeys (analysis (some "resume.pdf") (.ok ("objective skills education", false))
        (.ok "") (.ok "") (.ok ""))
      = ["score", "criteria", "errors", "suggestions", "job_roles", "job_field"] ∧
    respKeys (handle_errors 400 "Filename missing")
      ≠ respKeys (analysis (some "resume.pdf") (.ok ("objective skills education", false))
          (.ok "") (.ok "") (.ok "")) := by decide

/-- Claim C7: the camel-case repair is a total function on strings (it
is defined for every string, with no failure path) and idempotent:
applying it twice equals applying it once; it splits
"SoftwareEngineer" into "Software Engineer". -/
theorem c7_camel_idempotent (s : String) :
    camelCaseSplit (camelCaseSplit s) = camelCaseSplit s ∧
    camelCaseSplit "SoftwareEngineer" = "Software Engineer" := by
  refine ⟨?_, by decide⟩
  unfold camelCaseSplit
  exact congrArg String.mk (camelFixAux_idem s.data)

/-- Claim C8: suggestions and job roles are capped at 5 for every
provider reply, the errors list rendered by the analysis route never
exceeds 10 entries on any route outcome, and a reply with 8 bullet
lines yields exactly 5 suggestions and 5 job roles. -/
theorem c8_truncation (r1 r2 r3 : Except String String) (fname : Option String)
    (extr : Except String (String × Bool)) :
    (score_and_suggest r1).2.length ≤ 5 ∧
    (recommend_jobs r3).1.length ≤ 5 ∧
    (respErrors (analysis fname extr r1 r2 r3)).length ≤ 10 ∧
    (score_and_suggest (.ok "- a\n- b\n- c\n- d\n- e\n- f\n- g\n- h")).2.length = 5 ∧
    (recommend_jobs (.ok "- a\n- b\n- c\n- d\n- e\n- f\n- g\n- h")).1.length = 5 := by
  refine ⟨?_, ?_, ?_, by decide, by decide⟩
  · simp only [score_and_suggest]
    exact List.length_take_le 5 _
  · simp only [recommend_jobs]
    exact List.length_take_le 5 _
  · rcases fname with _ | f
    · change (respErrors (handle_errors 400 "Filename missing")).length ≤ 10
      decide
    · by_cases hf : f = ""
      · subst hf
        change (respErrors (handle_errors 400 "Filename missing")).length ≤ 10
        decide
      · rcases extr with e | ⟨text, photo⟩
        · simp only [analysis]
          rw [if_neg hf]
          simp [respErrors]
        · simp only [analysis]
          rw [if_neg hf]
          by_cases hg : countTrue (detect_criteria text photo) < 3
          · rw [if_pos hg]
            decide
          · rw [if_neg hg]
            simp only [respErrors, resultsCtx, ctxErrors, List.lookup]
            simp

/-- Claim C9: when the filename is present but extraction fails (for
example the file does not exist), the exception from
`extract_text_and_photo` leaves the route unhandled — the call sits
outside the try block — so the response is produced by neither the 400
nor the 502 render path. -/
theorem c9_extraction_outside_try (f e : String) (r1 r2 r3 : Except String String)
    (hf : f ≠ "") :
    analysis (some f) (extract_text_and_photo (.error e)) r1 r2 r3
        = .unhandledError e ∧
    ∀ (tmpl : String) (ctx : Ctx) (code : Nat),
      analysis (some f) (extract_text_and_photo (.error e)) r1 r2 r3
        ≠ .render tmpl ctx code := by
  have hex : extract_text_and_photo (.error e) = .error e := rfl
  constructor
  · rw [hex]
    simp only [analysis]
    rw [if_neg hf]
  · intro tmpl ctx code
    rw [hex]
    simp only [analysis]
    rw [if_neg hf]
    simp

/-- Claim C9 witness: a concrete missing file. -/
theorem c9_extraction_witness :
    analysis (some "ghost.pdf") (extract_text_and_photo (.error "FileNotFoundError"))
        (.ok "") (.ok "") (.ok "")
      = .unhandledError "FileNotFoundError" ∧
    analysis (some "ghost.pdf") (extract_text_and_photo (.error "FileNotFoundError"))
        (.ok "") (.ok "") (.ok "")
      ≠ .render "results.html" [] 400 := by
  have h := c9_extraction_outside_try "ghost.pdf" "FileNotFoundError"
    (.ok "") (.ok "") (.ok "") (by decide)
  exact ⟨h.1, h.2 "results.html" [] 400⟩

/-- Claim C10 (amended): every parsed suggestion, grammar-error and
job-role item is its reply line with all leading and trailing dash and
space characters removed and the result further trimmed of any
remaining surrounding whitespace; "- item -" parses to "item" and a
line of only dashes and spaces parses to the empty string while still
occupying one of the capped slots. -/
theorem c10_item_cleaning :
    (∀ (resp : Except String String) (s : String), s ∈ (score_and_suggest resp).2 →
      ∃ ln, ln ∈ pySplitLines (ask_gemini resp) ∧ isDashLine ln = true ∧ s = parseItem ln) ∧
    (∀ (resp : Except String String) (s : String), s ∈ grammar_errors resp →
      ∃ ln, ln ∈ pySplitLines (ask_gemini resp) ∧ isDashLine ln = true ∧ s = parseItem ln) ∧
    (∀ (resp : Except String String) (s : String), s ∈ (recommend_jobs resp).1 →
      ∃ ln, ln ∈ pySplitLines (ask_gemini resp) ∧ isDashLine ln = true ∧ s = parseItem ln) ∧
    parseItem "- item -" = "item" ∧
    parseItem "-- --" = "" ∧
    score_and_suggest (.ok "- -\n- a\n- b\n- c\n- d\n- e")
      = (0, ["", "a", "b", "c", "d"]) := by
  have key : ∀ (lines : List String) (s : String),
      s ∈ (lines.filter isDashLine).map parseItem →
      ∃ ln, ln ∈ lines ∧ isDashLine ln = true ∧ s = parseItem ln := by
    intro lines s hs
    obtain ⟨ln, hln, hparse⟩ := List.mem_map.mp hs
    obtain ⟨hmem, hdash⟩ := List.mem_filter.mp hln
    exact ⟨ln, hmem, hdash, hparse.symm⟩
  refine ⟨?_, ?_, ?_, by decide, by decide, by decide⟩
  · intro resp s hs
    have hrw : (score_and_suggest resp).2
        = (((pySplitLines (ask_gemini resp)).filter isDashLine).map parseItem).take 5 := by
      simp only [score_and_suggest]
      rw [suggestFold]
      simp
    rw [hrw] at hs
    exact key _ _ (List.mem_of_mem_take hs)
  · intro resp s hs
    exact key _ _ hs
  · intro resp s hs
    have hrw : (recommend_jobs resp).1
        = (((pySplitLines (ask_gemini resp)).filter isDashLine).map parseItem).take 5 := by
      simp only [recommend_jobs]
      rw [recommendFold_fst]
      simp
    rw [hrw] at hs
    exact key _ _ (List.mem_of_mem_take hs)

/-- Claim C10 witness: a concrete suggestion traced back to its bullet
line. -/
theorem c10_item_cleaning_witness :
    ∃ ln, ln ∈ pySplitLines (ask_gemini (.ok "- improve formatting")) ∧
      isDashLine ln = true ∧ "improve formatting" = parseItem ln :=
  c10_item_cleaning.1 (.ok "- improve formatting") "improve formatting" (by decide)

/-- Claim C10 counterexample: the bullet line "- x" followed by a tab
parses to "x" — the trailing tab is also removed by the final
whitespace strip — while the claimed transform (removing only dash and
space characters at the ends) would keep the tab. -/
theorem c10_counterexample :
    score_and_suggest (.ok "- x\t") = (0, ["x"]) ∧ ("x" : String) ≠ "x\t" := by decide


end ReSage
